import Mathlib

/-
  Verification of the Neona TUI session controller and its HTTP client
  (neona_tui/app.py and neona_tui/api_client.py), as a shallow embedding.

  The embedding mirrors the Python source:
  * Python strings are Lean `String`s; `str.strip`, `str.split(maxsplit=1)`,
    `str.split()`, `str.lower()` and slicing `s[:n]` are modelled below over
    `List Char` (`pyLower` models `str.lower` for its ASCII behaviour, which
    is all the command grammar relies on).
  * HTTP traffic is modelled by a `Daemon` record holding one response per
    endpoint, an `HttpOutcome` being either a response (status, text, parsed
    JSON body) or an `httpx.RequestError`.  JSON objects whose fields may be
    absent are records of `Option` fields; `dict.get(k, default)` becomes
    `Option.getD`.
  * Each client method of `NeonaClient` is split into the single request it
    issues (a `Call`, carrying path, query params and the JSON payload as the
    literal association list written in the Python dict) and a pure
    interpretation of the response.  `NeonaAPIError` becomes `ApiErr`, raised
    via `Except`.
  * The Textual widget layer (table rendering, status bar) is not state the
    claims are about and is not modelled; the session state that is
    (`self.tasks`, the message box, `self.last_health`, the DataTable cursor
    row used for selection) is `AppState`.
-/

namespace NeonaTui

/-! ### Python string primitives -/

/-- The whitespace characters `str.split` and `str.strip` split on
(space, tab, newline, carriage return, vertical tab, form feed). -/
def pyIsSpace (c : Char) : Bool :=
  c = ' ' ∨ c = '\t' ∨ c = '\n' ∨ c = '\r' ∨ c = Char.ofNat 11 ∨ c = Char.ofNat 12

/-- Model of `str.strip()` on a char list: drop trailing whitespace, then leading. -/
def pyStripList (cs : List Char) : List Char :=
  ((cs.reverse.dropWhile pyIsSpace).reverse).dropWhile pyIsSpace

/-- Model of `str.strip()`. -/
def pyStrip (s : String) : String := String.mk (pyStripList s.toList)

/-- Model of `str.split(maxsplit=1)`: skip leading whitespace; if nothing is left there
is no token (`none`); otherwise the first token and the remainder after the
separating whitespace run. -/
def splitFirst (cs : List Char) : Option (List Char × List Char) :=
  let cs1 := cs.dropWhile pyIsSpace
  match cs1 with
  | [] => none
  | c :: t =>
      let tok := (c :: t).takeWhile (fun x => !(pyIsSpace x))
      let rest := ((c :: t).dropWhile (fun x => !(pyIsSpace x))).dropWhile pyIsSpace
      some (tok, rest)

/-- Model of `str.split()` (split on whitespace runs, discarding empties), with an
accumulator for the token being read (kept reversed). -/
def pyTokensAux : List Char → List Char → List (List Char)
  | [], cur => if cur = [] then [] else [cur.reverse]
  | c :: cs, cur =>
      if pyIsSpace c then
        if cur = [] then pyTokensAux cs [] else cur.reverse :: pyTokensAux cs []
      else
        pyTokensAux cs (c :: cur)

/-- Model of `str.split()` on a string, as a list of strings. -/
def pyTokens (s : String) : List String :=
  (pyTokensAux s.toList []).map String.mk

/-- Model of `str.lower()` (ASCII model: only `A`-`Z` are mapped; the verbs the
grammar compares against are ASCII). -/
def pyLower (s : String) : String := String.mk (s.toList.map Char.toLower)

/-- Python slicing `s[:n]` (by code points). -/
def pySlice (s : String) (n : Nat) : String := String.mk (s.toList.take n)

/-- Whether `needle` occurs as a contiguous segment of `hay`
(used only to state "message contains ..." properties). -/
def hasSegment (hay needle : List Char) : Bool :=
  decide (needle <+: hay) ||
    match hay with
    | [] => false
    | _ :: t => hasSegment t needle

/-! ### JSON bodies with optional fields (`dict.get` model) -/

/-- Parsed `/health` body; `ok`, `db`, `version`, `time` may be absent. -/
structure HealthJson where
  okField : Option Bool
  db : Option String
  version : Option String
  time : Option String
deriving DecidableEq, Repr

/-- One element of the `/tasks` array. -/
structure TaskJson where
  id : Option String
  title : Option String
  status : Option String
  claimed_by : Option String
deriving DecidableEq, Repr

/-- Body of `GET /tasks/{id}`. -/
structure TaskDetailJson where
  id : Option String
  title : Option String
  description : Option String
  status : Option String
  claimed_by : Option String
  created_at : Option String
  updated_at : Option String
deriving DecidableEq, Repr

/-- Body of `POST /tasks` (only `id` is consumed). -/
structure CreateJson where
  id : Option String
deriving DecidableEq, Repr

/-- Body of `POST /tasks/{id}/run` and elements of `GET /tasks/{id}/logs`. -/
structure RunJson where
  id : Option String
  command : Option String
  exit_code : Option Int
  stdout : Option String
  stderr : Option String
deriving DecidableEq, Repr

/-- Memory items from `/memory` endpoints. -/
structure MemoryJson where
  id : Option String
  content : Option String
  tags : Option String
  task_id : Option String
deriving DecidableEq, Repr

/-- A JSON value appearing in a request payload dict. -/
inductive PyVal where
  | str (s : String)
  | int (n : Int)
  | strList (xs : List String)
deriving DecidableEq, Repr

/-- A JSON object kept opaque (the claim lease payload, worker records). -/
def PyObj := List (String × PyVal)
deriving DecidableEq, Repr

/-- Body of `GET /workers`. -/
structure WorkersJson where
  active_workers : Option Int
  global_max : Option Int
  connector_counts : Option (List (String × Int))
  workers : Option (List PyObj)
deriving DecidableEq, Repr

/-! ### Transport layer -/

/-- The outcome of one `httpx` request: either a response (status code, raw
text used for error bodies, parsed JSON body used on success) or an
`httpx.RequestError` (connection / timeout failure). -/
inductive HttpOutcome (α : Type) where
  | ok (status : Nat) (text : String) (body : α)
  | reqError (msg : String)
deriving DecidableEq, Repr

/-- One HTTP request issued by the client: `GET path?params` or
`POST path` with a JSON payload (the association list written in the
Python dict literal, in order). -/
inductive Call where
  | get (path : String) (params : List (String × String))
  | post (path : String) (body : List (String × PyVal))
deriving DecidableEq, Repr

/-- Lookup of a key in a request payload dict. -/
def lookupKey (body : List (String × PyVal)) (k : String) : Option PyVal :=
  (body.find? (fun p => p.1 = k)).map Prod.snd

/-- The daemon as seen through `httpx`: one outcome per endpoint
(the app issues each request with fixed arguments; responses are modelled
per-endpoint). -/
structure Daemon where
  healthResp : HttpOutcome HealthJson
  tasksResp : HttpOutcome (List TaskJson)
  getTaskResp : HttpOutcome TaskDetailJson
  createResp : HttpOutcome CreateJson
  claimResp : HttpOutcome PyObj
  releaseResp : HttpOutcome Unit
  runResp : HttpOutcome RunJson
  logsResp : HttpOutcome (List RunJson)
  taskMemResp : HttpOutcome (List MemoryJson)
  addMemResp : HttpOutcome MemoryJson
  queryResp : HttpOutcome (List MemoryJson)
  workersResp : HttpOutcome WorkersJson

/-! ### api_client.py: typed records and NeonaAPIError -/

/-- Model of `NeonaAPIError(message, status_code, body)`. -/
structure ApiErr where
  message : String
  status : Option Nat
  body : String
deriving DecidableEq, Repr

/-- Model of `NeonaAPIError._format_message` / `str(e)`. -/
def ApiErr.render (e : ApiErr) : String :=
  if e.body ≠ "" then e.message ++ ": " ++ e.body else e.message

/-- Result of a client method that may raise `NeonaAPIError`. -/
def ApiResult (α : Type) := Except ApiErr α

instance {ε α : Type} [DecidableEq ε] [DecidableEq α] : DecidableEq (Except ε α) := fun a b =>
  match a, b with
  | .ok x, .ok y =>
      if h : x = y then .isTrue (by rw [h]) else
        .isFalse (fun hc => h (Except.ok.inj hc))
  | .error x, .error y =>
      if h : x = y then .isTrue (by rw [h]) else
        .isFalse (fun hc => h (Except.error.inj hc))
  | .ok _, .error _ => .isFalse (fun hc => Except.noConfusion hc)
  | .error _, .ok _ => .isFalse (fun hc => Except.noConfusion hc)

instance {α : Type} [DecidableEq α] : DecidableEq (ApiResult α) := fun a b =>
  match a, b with
  | .ok x, .ok y =>
      if h : x = y then .isTrue (by rw [h]) else
        .isFalse (fun hc => h (Except.ok.inj hc))
  | .error x, .error y =>
      if h : x = y then .isTrue (by rw [h]) else
        .isFalse (fun hc => h (Except.error.inj hc))
  | .ok _, .error _ => .isFalse (fun hc => Except.noConfusion hc)
  | .error _, .ok _ => .isFalse (fun hc => Except.noConfusion hc)

/-- Model of `HealthResponse` dataclass. -/
structure HealthResponse where
  okField : Bool
  db : String
  version : String
  time : String
deriving DecidableEq, Repr

/-- Model of `TaskItem` dataclass. -/
structure TaskItem where
  id : String
  title : String
  status : String
  claimed_by : String
deriving DecidableEq, Repr

/-- Model of `TaskDetail` dataclass. -/
structure TaskDetail where
  id : String
  title : String
  description : String
  status : String
  claimed_by : String
  created_at : String
  updated_at : String
deriving DecidableEq, Repr

/-- Model of `RunDetail` dataclass. -/
structure RunDetail where
  id : String
  command : String
  exit_code : Int
  stdout : String
  stderr : String
deriving DecidableEq, Repr

/-- Model of `MemoryDetail` dataclass. -/
structure MemoryDetail where
  id : String
  content : String
  tags : String
  task_id : String
deriving DecidableEq, Repr

/-- Model of `WorkersStats` dataclass. -/
structure WorkersStats where
  active_workers : Int
  global_max : Int
  connector_counts : List (String × Int)
  workers : List PyObj
deriving DecidableEq, Repr

/-- Model of `DEFAULT_TTL_SEC = 300`. -/
def DEFAULT_TTL_SEC : Int := 300

/-- Model of `holder_id` computed in `NeonaClient.__init__`: `"tui@" + hostname`. -/
def mkHolderId (hostname : String) : String := "tui@" ++ hostname

/-- The synthesized fallback health value
`HealthResponse(ok=False, db="unreachable", version="", time="")`. -/
def fallbackHealth : HealthResponse :=
  { okField := false, db := "unreachable", version := "", time := "" }

/-! ### api_client.py: one interpretation function per method.

Each `NeonaClient` method is split into the single `Call` it issues and the
pure interpretation of the `HttpOutcome` it receives; the `_op` functions
below bundle the two, returning the result together with the one-element
request log. -/

/-- Model of `check_health`: response interpretation (never raises; both a status
`>= 400` and a `RequestError` yield the fallback). -/
def check_health_interp : HttpOutcome HealthJson → HealthResponse
  | .reqError _ => fallbackHealth
  | .ok status _ body =>
      if 400 ≤ status then fallbackHealth
      else
        { okField := body.okField.getD false
          db := body.db.getD "unknown"
          version := body.version.getD "unknown"
          time := body.time.getD "" }

/-- Model of `check_health`. -/
def check_health (d : Daemon) : HealthResponse × List Call :=
  (check_health_interp d.healthResp, [Call.get "/health" []])

/-- Model of `list_tasks`: response interpretation. -/
def list_tasks_interp : HttpOutcome (List TaskJson) → ApiResult (List TaskItem)
  | .reqError e => .error ⟨"Failed to list tasks: " ++ e, none, ""⟩
  | .ok status text body =>
      if 400 ≤ status then .error ⟨"Failed to list tasks", some status, text⟩
      else .ok (body.map fun t =>
        { id := t.id.getD "", title := t.title.getD ""
          status := t.status.getD "", claimed_by := t.claimed_by.getD "" })

/-- Model of `list_tasks(status_filter)`. -/
def list_tasks (d : Daemon) (status_filter : String) :
    ApiResult (List TaskItem) × List Call :=
  (list_tasks_interp d.tasksResp,
   [Call.get "/tasks" (if status_filter ≠ "" then [("status", status_filter)] else [])])

/-- Model of `get_task`: response interpretation. -/
def get_task_interp (task_id : String) :
    HttpOutcome TaskDetailJson → ApiResult TaskDetail
  | .reqError e => .error ⟨"Failed to get task " ++ task_id ++ ": " ++ e, none, ""⟩
  | .ok status text t =>
      if 400 ≤ status then
        .error ⟨"Failed to get task " ++ task_id, some status, text⟩
      else .ok
        { id := t.id.getD "", title := t.title.getD ""
          description := t.description.getD "", status := t.status.getD ""
          claimed_by := t.claimed_by.getD "", created_at := t.created_at.getD ""
          updated_at := t.updated_at.getD "" }

/-- Model of `get_task(task_id)`. -/
def get_task (d : Daemon) (task_id : String) : ApiResult TaskDetail × List Call :=
  (get_task_interp task_id d.getTaskResp, [Call.get ("/tasks/" ++ task_id) []])

/-- Model of `create_task`: response interpretation. -/
def create_task_interp : HttpOutcome CreateJson → ApiResult String
  | .reqError e => .error ⟨"Failed to create task: " ++ e, none, ""⟩
  | .ok status text body =>
      if 400 ≤ status then .error ⟨"Failed to create task", some status, text⟩
      else .ok (body.id.getD "")

/-- Model of `create_task(title, description)`. -/
def create_task (d : Daemon) (title description : String) :
    ApiResult String × List Call :=
  (create_task_interp d.createResp,
   [Call.post "/tasks" [("title", .str title), ("description", .str description)]])

/-- Model of `claim_task`: response interpretation (the lease payload is returned
opaque). -/
def claim_task_interp (task_id : String) : HttpOutcome PyObj → ApiResult PyObj
  | .reqError e => .error ⟨"Failed to claim task " ++ task_id ++ ": " ++ e, none, ""⟩
  | .ok status text body =>
      if 400 ≤ status then
        .error ⟨"Failed to claim task " ++ task_id, some status, text⟩
      else .ok body

/-- Model of `claim_task(task_id, ttl_sec)` with the session's `holder_id`. -/
def claim_task (d : Daemon) (holder_id task_id : String) (ttl_sec : Int) :
    ApiResult PyObj × List Call :=
  (claim_task_interp task_id d.claimResp,
   [Call.post ("/tasks/" ++ task_id ++ "/claim")
      [("holder_id", .str holder_id), ("ttl_sec", .int ttl_sec)]])

/-- Model of `release_task`: response interpretation (no body consumed on success). -/
def release_task_interp (task_id : String) : HttpOutcome Unit → ApiResult Unit
  | .reqError e => .error ⟨"Failed to release task " ++ task_id ++ ": " ++ e, none, ""⟩
  | .ok status text _ =>
      if 400 ≤ status then
        .error ⟨"Failed to release task " ++ task_id, some status, text⟩
      else .ok ()

/-- Model of `release_task(task_id)` with the session's `holder_id`. -/
def release_task (d : Daemon) (holder_id task_id : String) :
    ApiResult Unit × List Call :=
  (release_task_interp task_id d.releaseResp,
   [Call.post ("/tasks/" ++ task_id ++ "/release") [("holder_id", .str holder_id)]])

/-- Model of `run_task`: response interpretation; `command` defaults to the command
that was sent and `exit_code` to `-1` when absent from the body. -/
def run_task_interp (task_id command : String) : HttpOutcome RunJson → ApiResult RunDetail
  | .reqError e =>
      .error ⟨"Failed to run command on task " ++ task_id ++ ": " ++ e, none, ""⟩
  | .ok status text r =>
      if 400 ≤ status then
        .error ⟨"Failed to run command on task " ++ task_id, some status, text⟩
      else .ok
        { id := r.id.getD "", command := r.command.getD command
          exit_code := r.exit_code.getD (-1)
          stdout := r.stdout.getD "", stderr := r.stderr.getD "" }

/-- Model of `run_task(task_id, command, args)` with the session's `holder_id`. -/
def run_task (d : Daemon) (holder_id task_id command : String) (args : List String) :
    ApiResult RunDetail × List Call :=
  (run_task_interp task_id command d.runResp,
   [Call.post ("/tasks/" ++ task_id ++ "/run")
      [("holder_id", .str holder_id), ("command", .str command), ("args", .strList args)]])

/-- Model of `get_task_logs`: response interpretation. -/
def get_task_logs_interp (task_id : String) :
    HttpOutcome (List RunJson) → ApiResult (List RunDetail)
  | .reqError e =>
      .error ⟨"Failed to get logs for task " ++ task_id ++ ": " ++ e, none, ""⟩
  | .ok status text body =>
      if 400 ≤ status then
        .error ⟨"Failed to get logs for task " ++ task_id, some status, text⟩
      else .ok (body.map fun r =>
        { id := r.id.getD "", command := r.command.getD ""
          exit_code := r.exit_code.getD (-1)
          stdout := r.stdout.getD "", stderr := r.stderr.getD "" })

/-- Model of `get_task_logs(task_id)`. -/
def get_task_logs (d : Daemon) (task_id : String) :
    ApiResult (List RunDetail) × List Call :=
  (get_task_logs_interp task_id d.logsResp,
   [Call.get ("/tasks/" ++ task_id ++ "/logs") []])

/-- Model of `get_task_memory`: response interpretation (`task_id` defaults to the
requested task's id). -/
def get_task_memory_interp (task_id : String) :
    HttpOutcome (List MemoryJson) → ApiResult (List MemoryDetail)
  | .reqError e =>
      .error ⟨"Failed to get memory for task " ++ task_id ++ ": " ++ e, none, ""⟩
  | .ok status text body =>
      if 400 ≤ status then
        .error ⟨"Failed to get memory for task " ++ task_id, some status, text⟩
      else .ok (body.map fun m =>
        { id := m.id.getD "", content := m.content.getD ""
          tags := m.tags.getD "", task_id := m.task_id.getD task_id })

/-- Model of `get_task_memory(task_id)`. -/
def get_task_memory (d : Daemon) (task_id : String) :
    ApiResult (List MemoryDetail) × List Call :=
  (get_task_memory_interp task_id d.taskMemResp,
   [Call.get ("/tasks/" ++ task_id ++ "/memory") []])

/-- Model of `add_memory`: response interpretation; `content`, `tags`, `task_id`
default to the values that were sent. -/
def add_memory_interp (task_id content tags : String) :
    HttpOutcome MemoryJson → ApiResult MemoryDetail
  | .reqError e => .error ⟨"Failed to add memory: " ++ e, none, ""⟩
  | .ok status text m =>
      if 400 ≤ status then .error ⟨"Failed to add memory", some status, text⟩
      else .ok
        { id := m.id.getD "", content := m.content.getD content
          tags := m.tags.getD tags, task_id := m.task_id.getD task_id }

/-- Model of `add_memory(task_id, content, tags)`; note the payload carries no
`holder_id` (unlike claim/release/run). -/
def add_memory (d : Daemon) (task_id content tags : String) :
    ApiResult MemoryDetail × List Call :=
  (add_memory_interp task_id content tags d.addMemResp,
   [Call.post "/memory"
      [("task_id", .str task_id), ("content", .str content), ("tags", .str tags)]])

/-- Model of `query_memory`: response interpretation (`task_id` defaults to `""`). -/
def query_memory_interp : HttpOutcome (List MemoryJson) → ApiResult (List MemoryDetail)
  | .reqError e => .error ⟨"Failed to query memory: " ++ e, none, ""⟩
  | .ok status text body =>
      if 400 ≤ status then .error ⟨"Failed to query memory", some status, text⟩
      else .ok (body.map fun m =>
        { id := m.id.getD "", content := m.content.getD ""
          tags := m.tags.getD "", task_id := m.task_id.getD "" })

/-- Model of `query_memory(query)`. -/
def query_memory (d : Daemon) (query : String) :
    ApiResult (List MemoryDetail) × List Call :=
  (query_memory_interp d.queryResp, [Call.get "/memory" [("q", query)]])

/-- Model of `get_workers`: response interpretation. -/
def get_workers_interp : HttpOutcome WorkersJson → ApiResult WorkersStats
  | .reqError e => .error ⟨"Failed to get workers: " ++ e, none, ""⟩
  | .ok status text body =>
      if 400 ≤ status then .error ⟨"Failed to get workers", some status, text⟩
      else .ok
        { active_workers := body.active_workers.getD 0
          global_max := body.global_max.getD 0
          connector_counts := body.connector_counts.getD []
          workers := body.workers.getD [] }

/-- Model of `get_workers()`. -/
def get_workers (d : Daemon) : ApiResult WorkersStats × List Call :=
  (get_workers_interp d.workersResp, [Call.get "/workers" []])

/-! ### app.py: session state and controller -/

/-- One entry of `self.tasks` (the dict built in `refresh_tasks` from a
`TaskItem`). -/
structure TaskRec where
  id : String
  title : String
  status : String
  claimed_by : String
deriving DecidableEq, Repr

/-- The session state the claims are about: `self.tasks`, the message box
(text and its error styling from `show_message`), `self.last_health`, and
the DataTable cursor row that `get_selected_task` reads.  The cursor is
managed by the widget toolkit, so it is an arbitrary `Option Int` here;
the controller only ever reads it through the bounds check of
`get_selected_task`. -/
structure AppState where
  tasks : List TaskRec
  message : String
  isError : Bool
  lastHealth : HealthResponse
  cursorRow : Option Int
deriving DecidableEq, Repr

/-- The state right after `NeonaTUI.__init__` (cursor as the DataTable
starts it). -/
def initState : AppState :=
  { tasks := [], message := "", isError := false
    lastHealth := { okField := false, db := "", version := "", time := "" }
    cursorRow := some 0 }

/-- Model of `show_message(msg, error)`. -/
def show_message (s : AppState) (msg : String) (error : Bool) : AppState :=
  { s with message := msg, isError := error }

/-- Model of `get_selected_task`: the selected task, if the cursor is a valid index
into `self.tasks`. -/
def get_selected_task (s : AppState) : Option TaskRec :=
  match s.cursorRow with
  | none => none
  | some i =>
      if h : 0 ≤ i ∧ i.toNat < s.tasks.length then
        some (s.tasks.get ⟨i.toNat, h.2⟩)
      else none

/-- The offline message of `refresh_tasks`. -/
def offlineMsg : String := "Daemon offline - start with 'neona daemon'"

/-- The no-selection message shared by claim/release/run/note. -/
def noSelectionMsg : String := "No task selected - use arrow keys to select"

/-- Model of `refresh_tasks`: health check first; if not ok, only the message (and
`last_health`) change; otherwise the task list is replaced from
`list_tasks()` and the count reported, a `NeonaAPIError` from `list_tasks`
being caught locally. -/
def refresh_tasks (d : Daemon) (s : AppState) : AppState × List Call :=
  let hc := check_health d
  let s1 := { s with lastHealth := hc.1 }
  if hc.1.okField = false then
    (show_message s1 offlineMsg true, hc.2)
  else
    let lt := list_tasks d ""
    match lt.1 with
    | .ok items =>
        let s2 := { s1 with tasks := items.map fun t =>
          { id := t.id, title := t.title, status := t.status
            claimed_by := t.claimed_by } }
        (show_message s2 ("Loaded " ++ toString s2.tasks.length ++ " tasks") false,
         hc.2 ++ lt.2)
    | .error e =>
        (show_message s1 ("API Error: " ++ e.render) true, hc.2 ++ lt.2)

/-- Model of `cmd_add(title)`; a raised `NeonaAPIError` is propagated to
`handle_command` through the `Except`. -/
def cmd_add (d : Daemon) (s : AppState) (title : String) :
    Except ApiErr AppState × List Call :=
  if title = "" then (.ok (show_message s "Usage: add <task title>" true), [])
  else
    match create_task d title "" with
    | (.ok task_id, c1) =>
        let s1 := show_message s ("Created task: " ++ pySlice task_id 8) false
        let r := refresh_tasks d s1
        (.ok r.1, c1 ++ r.2)
    | (.error e, c1) => (.error e, c1)

/-- Model of `cmd_claim()`. -/
def cmd_claim (d : Daemon) (holder_id : String) (s : AppState) :
    Except ApiErr AppState × List Call :=
  match get_selected_task s with
  | none => (.ok (show_message s noSelectionMsg true), [])
  | some task =>
      match claim_task d holder_id task.id DEFAULT_TTL_SEC with
      | (.ok _, c1) =>
          let s1 := show_message s ("Claimed task: " ++ pySlice task.id 8) false
          let r := refresh_tasks d s1
          (.ok r.1, c1 ++ r.2)
      | (.error e, c1) => (.error e, c1)

/-- Model of `cmd_release()`. -/
def cmd_release (d : Daemon) (holder_id : String) (s : AppState) :
    Except ApiErr AppState × List Call :=
  match get_selected_task s with
  | none => (.ok (show_message s noSelectionMsg true), [])
  | some task =>
      match release_task d holder_id task.id with
      | (.ok _, c1) =>
          let s1 := show_message s ("Released task: " ++ pySlice task.id 8) false
          let r := refresh_tasks d s1
          (.ok r.1, c1 ++ r.2)
      | (.error e, c1) => (.error e, c1)

/-- The `result.stderr or result.stdout or f"exit code {...}"` chain of
`cmd_run`. -/
def failOutput (r : RunDetail) : String :=
  if r.stderr ≠ "" then r.stderr
  else if r.stdout ≠ "" then r.stdout
  else "exit code " ++ toString r.exit_code

/-- Model of `cmd_run(args_str)`.  The `[]` token case is unreachable from
`handle_command` (the remainder of a stripped line is never pure
whitespace); it is mapped to the unchanged state for totality. -/
def cmd_run (d : Daemon) (holder_id : String) (s : AppState) (args_str : String) :
    Except ApiErr AppState × List Call :=
  match get_selected_task s with
  | none => (.ok (show_message s noSelectionMsg true), [])
  | some task =>
      if args_str = "" then
        (.ok (show_message s "Usage: run <command> [args...]" true), [])
      else
        match pyTokens args_str with
        | [] => (.ok s, [])
        | command :: args =>
            match run_task d holder_id task.id command args with
            | (.ok result, c1) =>
                if result.exit_code = 0 then
                  (.ok (show_message s
                    ("Command '" ++ command ++ "' completed (exit=0)") false), c1)
                else
                  (.ok (show_message s
                    ("Command '" ++ command ++ "' failed: " ++ failOutput result)
                    true), c1)
            | (.error e, c1) => (.error e, c1)

/-- Model of `cmd_note(content)` (tags default to `"note"` in `add_memory`). -/
def cmd_note (d : Daemon) (s : AppState) (content : String) :
    Except ApiErr AppState × List Call :=
  match get_selected_task s with
  | none => (.ok (show_message s noSelectionMsg true), [])
  | some task =>
      if content = "" then
        (.ok (show_message s "Usage: note <content>" true), [])
      else
        match add_memory d task.id content "note" with
        | (.ok memory, c1) =>
            (.ok (show_message s ("Added note: " ++ pySlice memory.id 8) false), c1)
        | (.error e, c1) => (.error e, c1)

/-- The truncated preview of one memory item in `cmd_query`. -/
def queryPreview (m : MemoryDetail) : String :=
  if 40 < m.content.toList.length then pySlice m.content 40 ++ "..."
  else m.content

/-- Model of `cmd_query(query)`. -/
def cmd_query (d : Daemon) (s : AppState) (query : String) :
    Except ApiErr AppState × List Call :=
  if query = "" then
    (.ok (show_message s "Usage: query <search term>" true), [])
  else
    match query_memory d query with
    | (.ok results, c1) =>
        if results = [] then
          (.ok (show_message s ("No results for '" ++ query ++ "'") false), c1)
        else
          let msgParts :=
            ("Found " ++ toString results.length ++ " result(s):") ::
              (results.take 3).map fun m =>
                "  [" ++ m.tags ++ "] " ++ queryPreview m
          (.ok (show_message s (String.intercalate "\n" msgParts) false), c1)
    | (.error e, c1) => (.error e, c1)

/-- The unknown-command message, naming the (lowercased) verb. -/
def unknownMsg (action : String) : String :=
  "Unknown command: " ++ action ++
    " (try: add, claim, release, run, note, query, refresh)"

/-- The `if action == ... / elif ...` chain of `handle_command`: dispatch of
the lowercased verb to the command handlers. -/
def dispatchCmd (d : Daemon) (holder_id : String) (s : AppState)
    (action args_str : String) : Except ApiErr AppState × List Call :=
  if action = "add" then cmd_add d s args_str
  else if action = "refresh" ∨ action = "r" then
    ((refresh_tasks d s).map .ok id : Except ApiErr AppState × List Call)
  else if action = "claim" then cmd_claim d holder_id s
  else if action = "release" then cmd_release d holder_id s
  else if action = "run" then cmd_run d holder_id s args_str
  else if action = "note" then cmd_note d s args_str
  else if action = "query" then cmd_query d s args_str
  else (.ok (show_message s (unknownMsg action) true), [])

/-- Model of `handle_command(event)`: strip the line (empty input is a no-op), split
off the verb, lowercase it, dispatch; a `NeonaAPIError` escaping a handler
(the `try`/`except` around the chain) is rendered as `"Error: ..."`.  The
`none` branch of `splitFirst` is unreachable (the stripped line is
nonempty). -/
def handle_command (d : Daemon) (holder_id : String) (s : AppState) (raw : String) :
    AppState × List Call :=
  let cmd := pyStrip raw
  if cmd = "" then (s, [])
  else
    match splitFirst cmd.toList with
    | none => (s, [])
    | some (tok, rest) =>
        match dispatchCmd d holder_id s (pyLower (String.mk tok)) (String.mk rest) with
        | (.ok s1, c) => (s1, c)
        | (.error e, c) => (show_message s ("Error: " ++ e.render) true, c)

/-- The Textual message pump delivers `Input.Submitted` events one at a
time and awaits each handler to completion, so lines submitted while a
command is executing are queued and handled strictly in order; this folds
`handle_command` over that queue, concatenating the request logs. -/
def process_queue (d : Daemon) (holder_id : String) :
    AppState → List String → AppState × List Call
  | s, [] => (s, [])
  | s, line :: rest =>
      let r1 := handle_command d holder_id s line
      let r2 := process_queue d holder_id r1.1 rest
      (r2.1, r1.2 ++ r2.2)

/-! ### Character-level helper lemmas -/

lemma char_toNat_ofNat_lt (n : Nat) (h : n < 0xd800) : (Char.ofNat n).toNat = n := by
  rw [Char.ofNat, dif_pos (Or.inl h)]
  simp [Char.ofNatAux, Char.toNat, UInt32.toNat]

lemma toLower_toNat_of_upper (c : Char) (h : 65 ≤ c.toNat ∧ c.toNat ≤ 90) :
    (c.toLower).toNat = c.toNat + 32 := by
  rw [Char.toLower, if_pos ⟨h.1, h.2⟩]
  exact char_toNat_ofNat_lt _ (by omega)

lemma toLower_eq_self_of_not_upper (c : Char) (h : ¬ (65 ≤ c.toNat ∧ c.toNat ≤ 90)) :
    c.toLower = c := by
  rw [Char.toLower, if_neg (fun hc => h ⟨hc.1, hc.2⟩)]

lemma toLower_idem (c : Char) : c.toLower.toLower = c.toLower := by
  by_cases h : 65 ≤ c.toNat ∧ c.toNat ≤ 90
  · have h1 := toLower_toNat_of_upper c h
    apply toLower_eq_self_of_not_upper
    omega
  · rw [toLower_eq_self_of_not_upper c h]
    exact toLower_eq_self_of_not_upper c h

lemma char_eq_iff_toNat (c d : Char) : c = d ↔ c.toNat = d.toNat := by
  constructor
  · intro h; rw [h]
  · intro h
    apply Char.ext
    exact UInt32.toNat.inj h

lemma pyIsSpace_iff_toNat (c : Char) :
    pyIsSpace c = true ↔
      (c.toNat = 32 ∨ c.toNat = 9 ∨ c.toNat = 10 ∨ c.toNat = 13 ∨
       c.toNat = 11 ∨ c.toNat = 12) := by
  simp only [pyIsSpace, decide_eq_true_eq, char_eq_iff_toNat]
  have h9 : ('\t').toNat = 9 := by decide
  have h10 : ('\n').toNat = 10 := by decide
  have h13 : ('\r').toNat = 13 := by decide
  have h32 : (' ').toNat = 32 := by decide
  have h11 : (Char.ofNat 11).toNat = 11 := by decide
  have h12 : (Char.ofNat 12).toNat = 12 := by decide
  rw [h9, h10, h13, h32, h11, h12]

lemma pyIsSpace_toLower (c : Char) : pyIsSpace c.toLower = pyIsSpace c := by
  by_cases h : 65 ≤ c.toNat ∧ c.toNat ≤ 90
  · have h1 := toLower_toNat_of_upper c h
    have h2 : pyIsSpace c = false := by
      by_contra hc
      have := (pyIsSpace_iff_toNat c).mp (by revert hc; cases pyIsSpace c <;> simp)
      omega
    have h3 : pyIsSpace c.toLower = false := by
      by_contra hc
      have := (pyIsSpace_iff_toNat c.toLower).mp
        (by revert hc; cases pyIsSpace c.toLower <;> simp)
      omega
    rw [h2, h3]
  · rw [toLower_eq_self_of_not_upper c h]

/-! ### List-level helper lemmas -/

lemma dropWhile_eq_self_of_none {p : Char → Bool} {l : List Char}
    (h : ∀ c ∈ l, ¬ p c) : l.dropWhile p = l := by
  cases l with
  | nil => rfl
  | cons a t => rw [List.dropWhile_cons_of_neg (h a (List.mem_cons_self a t))]

lemma takeWhile_eq_self_of_all {p : Char → Bool} {l : List Char}
    (h : ∀ c ∈ l, p c) : l.takeWhile p = l := by
  induction l with
  | nil => rfl
  | cons a t ih =>
      rw [List.takeWhile_cons_of_pos (h a (List.mem_cons_self a t))]
      rw [ih (fun c hc => h c (List.mem_cons_of_mem a hc))]

lemma dropWhile_eq_nil_of_all {p : Char → Bool} {l : List Char}
    (h : ∀ c ∈ l, p c) : l.dropWhile p = [] := by
  induction l with
  | nil => rfl
  | cons a t ih =>
      rw [List.dropWhile_cons_of_pos (h a (List.mem_cons_self a t))]
      exact ih (fun c hc => h c (List.mem_cons_of_mem a hc))

/-! ### Concrete fixtures used by witnesses and counterexamples -/

/-- A healthy `/health` body. -/
def okHealthJson : HealthJson :=
  { okField := some true, db := some "sqlite", version := some "1.0", time := some "now" }

/-- One task of the fixture daemon. -/
def tj1 : TaskJson :=
  { id := some "task-001-abcdef", title := some "First", status := some "pending"
    claimed_by := some "" }

/-- A daemon for which every endpoint answers successfully and the task list
has one entry. -/
def okDaemon : Daemon :=
  { healthResp := .ok 200 "" okHealthJson
    tasksResp := .ok 200 "" [tj1]
    getTaskResp := .ok 200 ""
      ⟨some "t", some "x", some "", some "pending", some "", some "", some ""⟩
    createResp := .ok 200 "" ⟨some "newtask-12345"⟩
    claimResp := .ok 200 "" []
    releaseResp := .ok 200 "" ()
    runResp := .ok 200 "" ⟨some "run-1", some "build", some 0, some "out", some ""⟩
    logsResp := .ok 200 "" []
    taskMemResp := .ok 200 "" []
    addMemResp := .ok 200 "" ⟨some "mem-12345678", some "hello", some "note", some "task-001"⟩
    queryResp := .ok 200 "" []
    workersResp := .ok 200 "" ⟨some 0, some 0, some [], some []⟩ }

/-- The fixture daemon with an unreachable transport. -/
def offDaemon : Daemon := { okDaemon with healthResp := .reqError "connection refused" }

/-- The fixture daemon with a three-task list. -/
def threeDaemon : Daemon :=
  { okDaemon with tasksResp := .ok 200 "" (
      [tj1,
       { id := some "task-002", title := some "Second", status := some "claimed"
         claimed_by := some "tui@h" },
       { id := some "task-003", title := some "Third", status := some "running"
         claimed_by := some "w1" }]) }

/-- The session-state counterpart of `tj1`. -/
def tr1 : TaskRec :=
  { id := "task-001-abcdef", title := "First", status := "pending", claimed_by := "" }

/-- A session state with one task and the cursor on it. -/
def s0 : AppState :=
  { tasks := [tr1], message := "", isError := false
    lastHealth := fallbackHealth, cursorRow := some 0 }

/-- A session state whose table cursor is absent (no selection). -/
def sNoSel : AppState := { s0 with cursorRow := none }

/-! ### Claims -/

/-- Claim C4: the health check never raises (structurally, its result type is
`HealthResponse`, not an `ApiResult`): every connection/timeout failure of
the transport (`httpx.RequestError`) is mapped to the synthesized fallback
`HealthStatus` with `ok=false`, `db="unreachable"`, `version=""`,
`time=""`. -/
theorem C4_health_transport_failure_fallback (e : String) (d : Daemon) :
    check_health_interp (.reqError e) = fallbackHealth
  ∧ fallbackHealth =
      { okField := false, db := "unreachable", version := "", time := "" }
  ∧ (d.healthResp = .reqError e → (check_health d).1 = fallbackHealth) := by
  refine ⟨rfl, rfl, ?_⟩
  intro h
  simp only [check_health, h]
  rfl

/-- Claim C4 witness: the fixture offline daemon evaluates to the fallback. -/
theorem C4_witness :
    offDaemon.healthResp = .reqError "connection refused"
  ∧ (check_health offDaemon).1 = fallbackHealth :=
  ⟨rfl, (C4_health_transport_failure_fallback "connection refused" offDaemon).2.2 rfl⟩

/-- Claim C5 counterexample: not every operation maps a status `>= 400`
response to an `ApiError`: the health check (`check_health`) maps a 500
response to the synthesized fallback `HealthStatus` (its result type cannot
even carry an `ApiError`), so the claim fails for that operation. -/
theorem C5_counterexample :
    check_health_interp (.ok 500 "internal error" ⟨none, none, none, none⟩) =
      fallbackHealth
  ∧ fallbackHealth.okField = false :=
  ⟨rfl, rfl⟩

/-- Claim C5 (amended): every Transport Adapter operation except the health
check maps a status `>= 400` response to an `ApiError` carrying the
operation description, the status code, and the response body; the health
check instead returns the fallback `HealthStatus`.  (Each operation issues
exactly one request and never retries: each `_op` function's request log is
a one-element list by construction.) -/
theorem C5_status_ge_400_api_error (status : Nat) (text : String)
    (task_id command content tags : String)
    (hb : HealthJson) (tb : List TaskJson) (tdb : TaskDetailJson)
    (cb : CreateJson) (lb : PyObj) (rb : RunJson) (logsb : List RunJson)
    (memb : List MemoryJson) (mb : MemoryJson) (wb : WorkersJson)
    (h : 400 ≤ status) :
    list_tasks_interp (.ok status text tb) =
      .error ⟨"Failed to list tasks", some status, text⟩
  ∧ get_task_interp task_id (.ok status text tdb) =
      .error ⟨"Failed to get task " ++ task_id, some status, text⟩
  ∧ create_task_interp (.ok status text cb) =
      .error ⟨"Failed to create task", some status, text⟩
  ∧ claim_task_interp task_id (.ok status text lb) =
      .error ⟨"Failed to claim task " ++ task_id, some status, text⟩
  ∧ release_task_interp task_id (.ok status text ()) =
      .error ⟨"Failed to release task " ++ task_id, some status, text⟩
  ∧ run_task_interp task_id command (.ok status text rb) =
      .error ⟨"Failed to run command on task " ++ task_id, some status, text⟩
  ∧ get_task_logs_interp task_id (.ok status text logsb) =
      .error ⟨"Failed to get logs for task " ++ task_id, some status, text⟩
  ∧ get_task_memory_interp task_id (.ok status text memb) =
      .error ⟨"Failed to get memory for task " ++ task_id, some status, text⟩
  ∧ add_memory_interp task_id content tags (.ok status text mb) =
      .error ⟨"Failed to add memory", some status, text⟩
  ∧ query_memory_interp (.ok status text memb) =
      .error ⟨"Failed to query memory", some status, text⟩
  ∧ get_workers_interp (.ok status text wb) =
      .error ⟨"Failed to get workers", some status, text⟩
  ∧ check_health_interp (.ok status text hb) = fallbackHealth := by
  refine ⟨?_, ?_, ?_, ?_, ?_, ?_, ?_, ?_, ?_, ?_, ?_, ?_⟩ <;>
    simp only [list_tasks_interp, get_task_interp, create_task_interp,
      claim_task_interp, release_task_interp, run_task_interp,
      get_task_logs_interp, get_task_memory_interp, add_memory_interp,
      query_memory_interp, get_workers_interp, check_health_interp,
      if_pos h]

/-- Claim C5 witness: a 500 response to list-tasks and to create-task is an
`ApiError` with the description, status code, and response body. -/
theorem C5_witness :
    (400 ≤ 500)
  ∧ list_tasks_interp (.ok 500 "boom" []) =
      .error ⟨"Failed to list tasks", some 500, "boom"⟩
  ∧ create_task_interp (.ok 500 "boom" ⟨none⟩) =
      .error ⟨"Failed to create task", some 500, "boom"⟩ := by
  have h := C5_status_ge_400_api_error 500 "boom" "t1" "build" "c" "note"
    ⟨none, none, none, none⟩ [] ⟨none, none, none, none, none, none, none⟩
    ⟨none⟩ [] ⟨none, none, none, none, none⟩ [] [] ⟨none, none, none, none⟩
    ⟨none, none, none, none⟩ (by decide)
  exact ⟨by decide, h.1, h.2.2.1⟩

/-- Claim C7: with a task selected, `run("")` and `note("")` yield the
empty-argument usage error, and `query("")` does so in any state; none of
the three issues a network call (the request log is empty). -/
theorem C7_empty_argument_no_network (d : Daemon) (holder_id : String)
    (s : AppState) (task : TaskRec) (hsel : get_selected_task s = some task) :
    cmd_run d holder_id s "" =
      (.ok (show_message s "Usage: run <command> [args...]" true), [])
  ∧ cmd_note d s "" = (.ok (show_message s "Usage: note <content>" true), [])
  ∧ ∀ s2 : AppState,
      cmd_query d s2 "" =
        (.ok (show_message s2 "Usage: query <search term>" true), []) := by
  refine ⟨?_, ?_, ?_⟩
  · simp only [cmd_run, hsel]
    rfl
  · simp only [cmd_note, hsel]
    rfl
  · intro s2
    simp only [cmd_query]
    rfl

/-- Claim C7 witness: the empty-argument behaviour at the fixture state. -/
theorem C7_witness :
    cmd_run okDaemon "tui@h" s0 "" =
      (.ok (show_message s0 "Usage: run <command> [args...]" true), [])
  ∧ cmd_note okDaemon s0 "" =
      (.ok (show_message s0 "Usage: note <content>" true), [])
  ∧ cmd_query okDaemon s0 "" =
      (.ok (show_message s0 "Usage: query <search term>" true), []) := by
  have h := C7_empty_argument_no_network okDaemon "tui@h" s0 tr1 (by decide)
  exact ⟨h.1, h.2.1, h.2.2 s0⟩

/-- Claim C10: when a successful run response omits `exit_code`, the parsed
`RunDetail` has `exit_code = -1` (and `command` defaults to the command that
was sent), and `cmd_run` therefore reports the run as failed (error message
through the non-zero exit path). -/
theorem C10_run_missing_exit_code (holder_id task_id command args_str text : String)
    (args : List String) (status : Nat) (r : RunJson) (d : Daemon)
    (s : AppState) (task : TaskRec)
    (hexit : r.exit_code = none) (hst : status < 400)
    (hd : d.runResp = .ok status text r)
    (hsel : get_selected_task s = some task)
    (htok : pyTokens args_str = command :: args) :
    run_task_interp task_id command (.ok status text r) =
      .ok { id := r.id.getD "", command := r.command.getD command
            exit_code := -1, stdout := r.stdout.getD "", stderr := r.stderr.getD "" }
  ∧ (cmd_run d holder_id s args_str).1 =
      .ok (show_message s
        ("Command '" ++ command ++ "' failed: "
          ++ failOutput
            { id := r.id.getD "", command := r.command.getD command
              exit_code := -1, stdout := r.stdout.getD ""
              stderr := r.stderr.getD "" }) true) := by
  have hnot : ¬ (400 ≤ status) := by omega
  constructor
  · simp only [run_task_interp, if_neg hnot, hexit]
    rfl
  · have hne : args_str ≠ "" := by
      intro he
      rw [he] at htok
      exact List.noConfusion htok
    simp only [cmd_run, hsel, if_neg hne, htok, run_task, run_task_interp, hd,
      if_neg hnot, hexit]
    norm_num

/-- Claim C10 witness: a 200 run response with no `exit_code` field parses to
exit code `-1` and the session reports the run as failed. -/
theorem C10_witness :
    run_task_interp "t" "build" (.ok 200 "" ⟨some "run-9", none, none, none, none⟩) =
      .ok { id := "run-9", command := "build", exit_code := -1, stdout := "", stderr := "" }
  ∧ (cmd_run { okDaemon with runResp := .ok 200 "" ⟨some "run-9", none, none, none, none⟩ }
        "tui@h" s0 "build --flag").1 =
      .ok (show_message s0 "Command 'build' failed: exit code -1" true) := by
  have h := C10_run_missing_exit_code "tui@h" "t" "build" "build --flag" ""
    ["--flag"] 200 ⟨some "run-9", none, none, none, none⟩
    { okDaemon with runResp := .ok 200 "" ⟨some "run-9", none, none, none, none⟩ }
    s0 tr1 rfl (by decide) rfl (by decide) (by decide)
  refine ⟨?_, ?_⟩
  · rw [h.1]
    rfl
  · rw [h.2]
    rfl

/-- Claim C9 counterexample: the note (add-memory) request payload carries no
`holder_id` at all — its keys are exactly `task_id`, `content`, `tags` — so
`holder_id` is not "the identity sent in every claim, release, run, and note
call". -/
theorem C9_counterexample :
    (add_memory okDaemon "task-001-abcdef" "hello" "note").2 =
      [Call.post "/memory"
        [("task_id", .str "task-001-abcdef"), ("content", .str "hello"),
         ("tags", .str "note")]]
  ∧ lookupKey
      [("task_id", PyVal.str "task-001-abcdef"), ("content", PyVal.str "hello"),
       ("tags", PyVal.str "note")] "holder_id" = none := by
  exact ⟨rfl, by decide⟩

/-- Claim C9 (amended): `holder_id` equals `"tui@" + hostname`, is computed
once at client construction and (being a plain parameter of the embedded
operations, never reassigned) is immutable; it is the identity sent in every
claim, release, and run call; the note (add-memory) call carries no holder
identity in its payload. -/
theorem C9_holder_identity (hostname task_id content tags command : String)
    (ttl : Int) (args : List String) (d : Daemon) :
    mkHolderId hostname = "tui@" ++ hostname
  ∧ (claim_task d (mkHolderId hostname) task_id ttl).2 =
      [Call.post ("/tasks/" ++ task_id ++ "/claim")
        [("holder_id", .str ("tui@" ++ hostname)), ("ttl_sec", .int ttl)]]
  ∧ (release_task d (mkHolderId hostname) task_id).2 =
      [Call.post ("/tasks/" ++ task_id ++ "/release")
        [("holder_id", .str ("tui@" ++ hostname))]]
  ∧ (run_task d (mkHolderId hostname) task_id command args).2 =
      [Call.post ("/tasks/" ++ task_id ++ "/run")
        [("holder_id", .str ("tui@" ++ hostname)), ("command", .str command),
         ("args", .strList args)]]
  ∧ (add_memory d task_id content tags).2 =
      [Call.post "/memory"
        [("task_id", .str task_id), ("content", .str content),
         ("tags", .str tags)]] :=
  ⟨rfl, rfl, rfl, rfl, rfl⟩

/-- Claim C3: `refresh_tasks` with an unhealthy health check leaves the task
sequence completely unchanged and sets an error message containing
"offline"; with a healthy check and a successful list-tasks returning the
items, it replaces the task sequence wholesale with exactly those items
(never merging) and reports `Loaded N tasks`. -/
theorem C3_refresh_replaces_wholesale (d : Daemon) (s : AppState) :
    ((check_health d).1.okField = false →
       (refresh_tasks d s).1.tasks = s.tasks
     ∧ hasSegment (refresh_tasks d s).1.message.toList "offline".toList = true
     ∧ (refresh_tasks d s).1.isError = true)
  ∧ (∀ items, (check_health d).1.okField = true →
       (list_tasks d "").1 = .ok items →
       (refresh_tasks d s).1.tasks =
         (items.map fun t : TaskItem =>
           ({ id := t.id, title := t.title, status := t.status
              claimed_by := t.claimed_by } : TaskRec))
     ∧ (refresh_tasks d s).1.message =
         "Loaded " ++ toString items.length ++ " tasks"
     ∧ (refresh_tasks d s).1.isError = false) := by
  constructor
  · intro hbad
    have heq : refresh_tasks d s =
        ({ s with
            lastHealth := (check_health d).1
            message := offlineMsg
            isError := true }, (check_health d).2) := by
      simp only [refresh_tasks, show_message]
      rw [if_pos hbad]
    rw [heq]
    refine ⟨rfl, ?_, rfl⟩
    show hasSegment offlineMsg.toList "offline".toList = true
    decide
  · intro items hok hlist
    have hne : ¬ ((check_health d).1.okField = false) := by
      rw [hok]
      intro hc
      exact Bool.noConfusion hc
    have heq : refresh_tasks d s =
        ({ s with
            lastHealth := (check_health d).1
            tasks := items.map (fun t =>
              ({ id := t.id, title := t.title, status := t.status
                 claimed_by := t.claimed_by } : TaskRec))
            message := "Loaded "
              ++ toString (items.map (fun t =>
                   ({ id := t.id, title := t.title, status := t.status
                      claimed_by := t.claimed_by } : TaskRec))).length
              ++ " tasks"
            isError := false },
         (check_health d).2 ++ (list_tasks d "").2) := by
      simp only [refresh_tasks, show_message]
      rw [if_neg hne, hlist]
    rw [heq]
    refine ⟨rfl, ?_, rfl⟩
    simp only [List.length_map]

/-- Claim C3 witness: the offline fixture leaves the single-task list
untouched with an "offline" error; the three-task fixture replaces the list
with exactly three entries and reports `Loaded 3 tasks`. -/
theorem C3_witness :
    (refresh_tasks offDaemon s0).1.tasks = s0.tasks
  ∧ hasSegment (refresh_tasks offDaemon s0).1.message.toList "offline".toList = true
  ∧ (refresh_tasks threeDaemon s0).1.tasks =
      [tr1,
       { id := "task-002", title := "Second", status := "claimed", claimed_by := "tui@h" },
       { id := "task-003", title := "Third", status := "running", claimed_by := "w1" }]
  ∧ (refresh_tasks threeDaemon s0).1.message = "Loaded 3 tasks" := by
  have hoff := (C3_refresh_replaces_wholesale offDaemon s0).1 (by decide)
  have hon := (C3_refresh_replaces_wholesale threeDaemon s0).2
    [{ id := "task-001-abcdef", title := "First", status := "pending", claimed_by := "" },
     { id := "task-002", title := "Second", status := "claimed", claimed_by := "tui@h" },
     { id := "task-003", title := "Third", status := "running", claimed_by := "w1" }]
    (by decide) (by decide)
  refine ⟨hoff.1, hoff.2.1, ?_, ?_⟩
  · rw [hon.1]
    decide
  · rw [hon.2.1]
    decide

/-- A six-task session state whose cursor sits on the last row; refreshing
against the one-task fixture daemon shrinks the list past the cursor. -/
def sSix : AppState :=
  { tasks := [tr1, tr1, tr1, tr1, tr1, tr1], message := "", isError := false
    lastHealth := fallbackHealth, cursorRow := some 5 }

/-- Claim C6: whenever a selection is present it is a valid index into the
current task sequence; after a refresh that leaves the cursor out of range
the selection reads as cleared; and a cleared selection makes every
selection-using operation surface the no-selection error without touching
the network. -/
theorem C6_selection_invariant (d : Daemon) (holder_id : String) (s : AppState) :
    (∀ task, get_selected_task s = some task →
       ∃ (i : Int) (h : i.toNat < s.tasks.length),
         s.cursorRow = some i ∧ 0 ≤ i ∧ task = s.tasks.get ⟨i.toNat, h⟩)
  ∧ (∀ i : Int, (refresh_tasks d s).1.cursorRow = some i →
       ¬ (0 ≤ i ∧ i.toNat < (refresh_tasks d s).1.tasks.length) →
       get_selected_task (refresh_tasks d s).1 = none)
  ∧ (get_selected_task s = none →
       cmd_claim d holder_id s = (.ok (show_message s noSelectionMsg true), [])
     ∧ cmd_release d holder_id s = (.ok (show_message s noSelectionMsg true), [])
     ∧ (∀ a, cmd_run d holder_id s a = (.ok (show_message s noSelectionMsg true), []))
     ∧ (∀ c, cmd_note d s c = (.ok (show_message s noSelectionMsg true), []))) := by
  refine ⟨?_, ?_, ?_⟩
  · intro task h
    unfold get_selected_task at h
    cases hc : s.cursorRow with
    | none => rw [hc] at h; exact Option.noConfusion h
    | some i =>
        rw [hc] at h
        dsimp only at h
        by_cases hb : 0 ≤ i ∧ i.toNat < s.tasks.length
        · rw [dif_pos hb] at h
          exact ⟨i, hb.2, rfl, hb.1, (Option.some.inj h).symm⟩
        · rw [dif_neg hb] at h
          exact Option.noConfusion h
  · intro i hc hnot
    unfold get_selected_task
    rw [hc]
    dsimp only
    rw [dif_neg hnot]
  · intro h
    refine ⟨?_, ?_, ?_, ?_⟩
    · simp only [cmd_claim, h]
    · simp only [cmd_release, h]
    · intro a
      simp only [cmd_run, h]
    · intro c
      simp only [cmd_note, h]

/-- Claim C6 witness: a present selection at the fixture state is the valid
index 0; a refresh shrinking six tasks to one clears the out-of-range
selection; an absent selection makes claim a pure no-selection error. -/
theorem C6_witness :
    (∃ (i : Int) (h : i.toNat < s0.tasks.length),
       s0.cursorRow = some i ∧ 0 ≤ i ∧ tr1 = s0.tasks.get ⟨i.toNat, h⟩)
  ∧ get_selected_task (refresh_tasks okDaemon sSix).1 = none
  ∧ cmd_claim okDaemon "tui@h" sNoSel =
      (.ok (show_message sNoSel noSelectionMsg true), []) := by
  have h0 := C6_selection_invariant okDaemon "tui@h" s0
  have h6 := C6_selection_invariant okDaemon "tui@h" sSix
  have hn := C6_selection_invariant okDaemon "tui@h" sNoSel
  exact ⟨h0.1 tr1 (by decide), h6.2.1 5 (by decide) (by decide),
    (hn.2.2 (by decide)).1⟩

/-- Claim C2 counterexample: at the fixture state a successful `release`
does refresh the task list — its request log ends with the health and
list-tasks calls, and the final message is the refresh's `Loaded 1 tasks`,
not the release confirmation. -/
theorem C2_counterexample :
    (cmd_release okDaemon "tui@h" s0).2 =
      [Call.post "/tasks/task-001-abcdef/release" [("holder_id", .str "tui@h")],
       Call.get "/health" [], Call.get "/tasks" []]
  ∧ (cmd_release okDaemon "tui@h" s0).1 =
      .ok { tasks := [tr1], message := "Loaded 1 tasks", isError := false
            lastHealth := { okField := true, db := "sqlite", version := "1.0", time := "now" }
            cursorRow := some 0 } := by
  decide

/-- Claim C2 (amended): after a successful release the session performs an
implicit refresh exactly as add and claim do — the release confirmation is
set and then the full `refresh_tasks` runs over it (issuing the health and
list-tasks requests and replacing the task sequence); run and note are the
operations that never issue a list-tasks request. -/
theorem C2_release_implicit_refresh (d : Daemon) (holder_id : String)
    (s : AppState) (task : TaskRec) (status : Nat) (text : String)
    (hsel : get_selected_task s = some task)
    (hrel : d.releaseResp = .ok status text ())
    (hst : status < 400) :
    cmd_release d holder_id s =
      (.ok (refresh_tasks d
         (show_message s ("Released task: " ++ pySlice task.id 8) false)).1,
       Call.post ("/tasks/" ++ task.id ++ "/release")
           [("holder_id", .str holder_id)] ::
         (refresh_tasks d
           (show_message s ("Released task: " ++ pySlice task.id 8) false)).2)
  ∧ (∀ a, Call.get "/tasks" [] ∉ (cmd_run d holder_id s a).2)
  ∧ (∀ content, Call.get "/tasks" [] ∉ (cmd_note d s content).2) := by
  have hnot : ¬ (400 ≤ status) := by omega
  refine ⟨?_, ?_, ?_⟩
  · simp only [cmd_release, hsel, release_task, release_task_interp, hrel,
      if_neg hnot, List.singleton_append]
  · intro a
    simp only [cmd_run, hsel, run_task]
    by_cases ha : a = ""
    · simp [ha]
    · rw [if_neg ha]
      rcases htok : pyTokens a with _ | ⟨c, as⟩
      · simp
      · rcases hi : run_task_interp task.id c d.runResp with e | r
        · simp [hi]
        · by_cases he : r.exit_code = 0 <;> simp [hi, he]
  · intro content
    simp only [cmd_note, hsel, add_memory]
    by_cases hc : content = ""
    · simp [hc]
    · rw [if_neg hc]
      rcases hi : add_memory_interp task.id content "note" d.addMemResp with e | m
      · simp [hi]
      · simp [hi]

/-- Claim C2 (amended) witness: the fixture release issues the release,
health, and list-tasks requests in order, and run/note issue no list-tasks
request. -/
theorem C2_witness :
    cmd_release okDaemon "tui@h" s0 =
      (.ok (refresh_tasks okDaemon
         (show_message s0 ("Released task: " ++ pySlice "task-001-abcdef" 8) false)).1,
       Call.post "/tasks/task-001-abcdef/release"
           [("holder_id", .str "tui@h")] ::
         (refresh_tasks okDaemon
           (show_message s0 ("Released task: " ++ pySlice "task-001-abcdef" 8) false)).2)
  ∧ Call.get "/tasks" [] ∉ (cmd_run okDaemon "tui@h" s0 "build --flag").2
  ∧ Call.get "/tasks" [] ∉ (cmd_note okDaemon s0 "remember this").2 := by
  have h := C2_release_implicit_refresh okDaemon "tui@h" s0 tr1 200 ""
    (by decide) rfl (by decide)
  exact ⟨h.1, h.2.1 "build --flag", h.2.2 "remember this"⟩

/-! ### Grammar lemmas: splitFirst, pyStrip, pyTokens -/

lemma dropWhile_idem (p : Char → Bool) (l : List Char) :
    (l.dropWhile p).dropWhile p = l.dropWhile p := by
  induction l with
  | nil => rfl
  | cons a t ih =>
      by_cases h : p a
      · rw [List.dropWhile_cons_of_pos h]
        exact ih
      · rw [List.dropWhile_cons_of_neg h, List.dropWhile_cons_of_neg h]

lemma head_not_of_dropWhile_eq_cons {p : Char → Bool} {l t : List Char} {c : Char}
    (h : l.dropWhile p = c :: t) : p c = false := by
  have h0 := List.head?_dropWhile_not p l
  rw [h] at h0
  simpa using h0

/-- Full characterization of `splitFirst`: the input decomposes as leading
whitespace, the nonempty whitespace-free token, the separating whitespace
run (nonempty whenever a remainder follows), and the remainder, whose first
character is not whitespace. -/
lemma splitFirst_characterize (cs tok rest : List Char)
    (h : splitFirst cs = some (tok, rest)) :
    ∃ ws1 ws2 : List Char,
      cs = ws1 ++ tok ++ ws2 ++ rest
    ∧ (∀ c ∈ ws1, pyIsSpace c = true)
    ∧ (∀ c ∈ ws2, pyIsSpace c = true)
    ∧ tok ≠ []
    ∧ (∀ c ∈ tok, pyIsSpace c = false)
    ∧ (∀ c, rest.head? = some c → pyIsSpace c = false)
    ∧ (rest ≠ [] → ws2 ≠ []) := by
  unfold splitFirst at h
  cases h1 : cs.dropWhile pyIsSpace with
  | nil => rw [h1] at h; exact Option.noConfusion h
  | cons a t =>
      rw [h1] at h
      dsimp only at h
      obtain ⟨htok, hrest⟩ : ((a :: t).takeWhile (fun x => !(pyIsSpace x)) = tok)
          ∧ (((a :: t).dropWhile (fun x => !(pyIsSpace x))).dropWhile pyIsSpace = rest) := by
        have := Option.some.inj h
        exact ⟨congrArg Prod.fst this, congrArg Prod.snd this⟩
      have ha : pyIsSpace a = false := head_not_of_dropWhile_eq_cons h1
      refine ⟨cs.takeWhile pyIsSpace,
        ((a :: t).dropWhile (fun x => !(pyIsSpace x))).takeWhile pyIsSpace,
        ?_, ?_, ?_, ?_, ?_, ?_, ?_⟩
      · conv_lhs => rw [← List.takeWhile_append_dropWhile pyIsSpace cs, h1]
        rw [← htok, ← hrest]
        rw [List.append_assoc, List.append_assoc]
        congr 1
        conv_lhs => rw [← List.takeWhile_append_dropWhile (fun x => !(pyIsSpace x)) (a :: t)]
        congr 1
        rw [List.takeWhile_append_dropWhile]
      · intro c hc
        exact List.mem_takeWhile_imp hc
      · intro c hc
        exact List.mem_takeWhile_imp hc
      · rw [← htok]
        rw [List.takeWhile_cons_of_pos (by simp [ha])]
        exact List.cons_ne_nil _ _
      · intro c hc
        rw [← htok] at hc
        have := List.mem_takeWhile_imp hc
        simpa using this
      · intro c hc
        rw [← hrest] at hc
        cases h2 : ((a :: t).dropWhile (fun x => !(pyIsSpace x))).dropWhile pyIsSpace with
        | nil => rw [h2] at hc; exact Option.noConfusion hc
        | cons b u =>
            rw [h2] at hc
            have hb := head_not_of_dropWhile_eq_cons h2
            rw [show b = c from Option.some.inj hc] at hb
            exact hb
      · intro hrne hws2
        rw [← hrest] at hrne
        set m := (a :: t).dropWhile (fun x => !(pyIsSpace x)) with hm
        have hmne : m ≠ [] := by
          intro hmnil
          rw [hmnil] at hrne
          exact hrne rfl
        obtain ⟨b, u, hbu⟩ := List.exists_cons_of_ne_nil hmne
        have hb : (fun x => !(pyIsSpace x)) b = false := head_not_of_dropWhile_eq_cons (hm ▸ hbu)
        have hbs : pyIsSpace b = true := by simpa using hb
        rw [hbu] at hws2
        rw [List.takeWhile_cons_of_pos hbs] at hws2
        exact List.cons_ne_nil _ _ hws2

/-- Lemma: `pyStripList` has no leading whitespace left. -/
lemma pyStripList_dropWhile (cs : List Char) :
    (pyStripList cs).dropWhile pyIsSpace = pyStripList cs := by
  unfold pyStripList
  exact dropWhile_idem _ _

lemma string_mk_eq_empty_iff (l : List Char) : String.mk l = "" ↔ l = [] := by
  constructor
  · intro h
    have := congrArg String.toList h
    simpa using this
  · intro h
    rw [h]

/-- A nonempty stripped line always yields a token. -/
lemma splitFirst_pyStrip_isSome (raw : String) (h : pyStrip raw ≠ "") :
    ∃ tok rest, splitFirst (pyStrip raw).toList = some (tok, rest) := by
  have hl : (pyStrip raw).toList = pyStripList raw.toList := rfl
  have hne : pyStripList raw.toList ≠ [] := by
    intro hc
    exact h (by unfold pyStrip; rw [hc])
  unfold splitFirst
  rw [hl, pyStripList_dropWhile]
  cases h2 : pyStripList raw.toList with
  | nil => exact absurd h2 hne
  | cons a t => exact ⟨_, _, rfl⟩

lemma pyTokensAux_ne_nil (cs cur : List Char) (h : cur ≠ []) :
    pyTokensAux cs cur ≠ [] := by
  induction cs generalizing cur with
  | nil =>
      unfold pyTokensAux
      rw [if_neg h]
      exact List.cons_ne_nil _ _
  | cons a t ih =>
      unfold pyTokensAux
      by_cases ha : pyIsSpace a
      · rw [if_pos ha, if_neg h]
        exact List.cons_ne_nil _ _
      · rw [if_neg ha]
        exact ih _ (List.cons_ne_nil _ _)

/-- A remainder starting with a non-whitespace character splits into at
least one token. -/
lemma pyTokens_cons_ne_nil (c : Char) (t : List Char) (hc : pyIsSpace c = false) :
    pyTokens (String.mk (c :: t)) ≠ [] := by
  unfold pyTokens
  intro h
  rw [List.map_eq_nil_iff] at h
  revert h
  show pyTokensAux (c :: t) [] ≠ []
  unfold pyTokensAux
  rw [if_neg (by simp [hc])]
  exact pyTokensAux_ne_nil t [c] (List.cons_ne_nil _ _)

/-! ### handle_command structure lemmas -/

/-- Unfolding of `handle_command` once the line is known to parse. -/
lemma handle_command_eq_dispatch (d : Daemon) (holder_id : String) (s : AppState)
    (raw : String) (tok rest : List Char)
    (hsplit : splitFirst (pyStrip raw).toList = some (tok, rest)) :
    handle_command d holder_id s raw =
      match dispatchCmd d holder_id s (pyLower (String.mk tok)) (String.mk rest) with
      | (.ok s1, c) => (s1, c)
      | (.error e, c) => (show_message s ("Error: " ++ e.render) true, c) := by
  have hne : ¬ (pyStrip raw = "") := by
    intro he
    rw [he] at hsplit
    simp [splitFirst] at hsplit
  simp only [handle_command, if_neg hne, hsplit]

/-- The request log of `handle_command` is that of the dispatched handler
(the `except` wrapper only changes the state). -/
lemma handle_wrap_snd (s : AppState) (p : Except ApiErr AppState × List Call) :
    (match p with
     | (.ok s1, c) => (s1, c)
     | (.error e, c) => (show_message s ("Error: " ++ e.render) true, c)).2 = p.2 := by
  rcases p with ⟨r, c⟩
  cases r <;> rfl

/-- Lemma: `refresh_tasks` always issues at least the health request. -/
lemma refresh_calls_ne_nil (d : Daemon) (s : AppState) :
    (refresh_tasks d s).2 ≠ [] := by
  unfold refresh_tasks
  dsimp only
  by_cases h : (check_health d).1.okField = false
  · rw [if_pos h]
    simp [check_health]
  · rw [if_neg h]
    rcases hl : (list_tasks d "").1 with e | items <;> simp [hl, check_health]

lemma cmd_add_zero_calls (d : Daemon) (s : AppState) (t : String)
    (h : (cmd_add d s t).2 = []) :
    cmd_add d s t = (.ok (show_message s "Usage: add <task title>" true), []) := by
  by_cases ht : t = ""
  · simp [cmd_add, ht]
  · exfalso
    revert h
    simp only [cmd_add, if_neg ht, create_task]
    rcases hi : create_task_interp d.createResp with e | tid <;> simp [hi]

lemma cmd_claim_zero_calls (d : Daemon) (holder_id : String) (s : AppState)
    (h : (cmd_claim d holder_id s).2 = []) :
    cmd_claim d holder_id s = (.ok (show_message s noSelectionMsg true), []) := by
  cases hsel : get_selected_task s with
  | none => simp [cmd_claim, hsel]
  | some task =>
      exfalso
      revert h
      simp only [cmd_claim, hsel, claim_task]
      rcases hi : claim_task_interp task.id d.claimResp with e | x <;> simp [hi]

lemma cmd_release_zero_calls (d : Daemon) (holder_id : String) (s : AppState)
    (h : (cmd_release d holder_id s).2 = []) :
    cmd_release d holder_id s = (.ok (show_message s noSelectionMsg true), []) := by
  cases hsel : get_selected_task s with
  | none => simp [cmd_release, hsel]
  | some task =>
      exfalso
      revert h
      simp only [cmd_release, hsel, release_task]
      rcases hi : release_task_interp task.id d.releaseResp with e | x <;> simp [hi]

lemma cmd_run_zero_calls (d : Daemon) (holder_id : String) (s : AppState)
    (a : String) (hwf : a = "" ∨ pyTokens a ≠ [])
    (h : (cmd_run d holder_id s a).2 = []) :
    cmd_run d holder_id s a = (.ok (show_message s noSelectionMsg true), [])
  ∨ cmd_run d holder_id s a =
      (.ok (show_message s "Usage: run <command> [args...]" true), []) := by
  cases hsel : get_selected_task s with
  | none => left; simp [cmd_run, hsel]
  | some task =>
      by_cases ha : a = ""
      · right; simp [cmd_run, hsel, ha]
      · exfalso
        have htokne : pyTokens a ≠ [] := hwf.resolve_left ha
        obtain ⟨c, as, htok⟩ := List.exists_cons_of_ne_nil htokne
        revert h
        simp only [cmd_run, hsel, if_neg ha, htok, run_task]
        rcases hi : run_task_interp task.id c d.runResp with e | r
        · simp [hi]
        · by_cases he : r.exit_code = 0 <;> simp [hi, he]

lemma cmd_note_zero_calls (d : Daemon) (s : AppState) (content : String)
    (h : (cmd_note d s content).2 = []) :
    cmd_note d s content = (.ok (show_message s noSelectionMsg true), [])
  ∨ cmd_note d s content =
      (.ok (show_message s "Usage: note <content>" true), []) := by
  cases hsel : get_selected_task s with
  | none => left; simp [cmd_note, hsel]
  | some task =>
      by_cases hc : content = ""
      · right; simp [cmd_note, hsel, hc]
      · exfalso
        revert h
        simp only [cmd_note, hsel, if_neg hc, add_memory]
        rcases hi : add_memory_interp task.id content "note" d.addMemResp with e | m <;>
          simp [hi]

lemma cmd_query_zero_calls (d : Daemon) (s : AppState) (q : String)
    (h : (cmd_query d s q).2 = []) :
    cmd_query d s q = (.ok (show_message s "Usage: query <search term>" true), []) := by
  by_cases hq : q = ""
  · simp [cmd_query, hq]
  · exfalso
    revert h
    simp only [cmd_query, if_neg hq, query_memory]
    rcases hi : query_memory_interp d.queryResp with e | results
    · simp [hi]
    · by_cases hr : results = [] <;> simp [hi, hr]

/-- Claim C1 counterexample: two `claim` lines submitted in a row (the
second while the first is executing, queued by the toolkit's sequential
message pump) are BOTH executed — the claim request is posted twice and the
final message is the second command's refresh result — rather than the
second being rejected with a "busy" message; the session state has no busy
flag at all. -/
theorem C1_counterexample :
    (process_queue okDaemon "tui@h" s0 ["claim", "claim"]).2 =
      [Call.post "/tasks/task-001-abcdef/claim"
         [("holder_id", .str "tui@h"), ("ttl_sec", .int 300)],
       Call.get "/health" [], Call.get "/tasks" [],
       Call.post "/tasks/task-001-abcdef/claim"
         [("holder_id", .str "tui@h"), ("ttl_sec", .int 300)],
       Call.get "/health" [], Call.get "/tasks" []]
  ∧ (process_queue okDaemon "tui@h" s0 ["claim", "claim"]).1.message =
      "Loaded 1 tasks" := by
  decide

/-- Claim C1 (amended): command handling has no busy guard.  Serialization
comes from the sequential event handling modelled by `process_queue`; the
controller rejects a command locally (that is, handles a nonempty line
without issuing any request) only with an unknown-command, usage, or
no-selection error message, leaving the rest of the session state
untouched — never with a "busy" message. -/
theorem C1_no_busy_rejection (d : Daemon) (holder_id : String) (s : AppState)
    (raw : String) (hne : pyStrip raw ≠ "")
    (hcalls : (handle_command d holder_id s raw).2 = []) :
    (handle_command d holder_id s raw).1.tasks = s.tasks
  ∧ (handle_command d holder_id s raw).1.lastHealth = s.lastHealth
  ∧ (handle_command d holder_id s raw).1.cursorRow = s.cursorRow
  ∧ (handle_command d holder_id s raw).1.isError = true
  ∧ ((handle_command d holder_id s raw).1.message = "Usage: add <task title>"
   ∨ (handle_command d holder_id s raw).1.message = noSelectionMsg
   ∨ (handle_command d holder_id s raw).1.message = "Usage: run <command> [args...]"
   ∨ (handle_command d holder_id s raw).1.message = "Usage: note <content>"
   ∨ (handle_command d holder_id s raw).1.message = "Usage: query <search term>"
   ∨ ∃ v, (handle_command d holder_id s raw).1.message = unknownMsg v) := by
  obtain ⟨tok, rest, hsplit⟩ := splitFirst_pyStrip_isSome raw hne
  have heq := handle_command_eq_dispatch d holder_id s raw tok rest hsplit
  have hdc : (dispatchCmd d holder_id s (pyLower (String.mk tok)) (String.mk rest)).2
      = [] := by
    rw [heq, handle_wrap_snd] at hcalls
    exact hcalls
  suffices hres : ∃ M,
      (M = "Usage: add <task title>" ∨ M = noSelectionMsg
       ∨ M = "Usage: run <command> [args...]" ∨ M = "Usage: note <content>"
       ∨ M = "Usage: query <search term>" ∨ ∃ v, M = unknownMsg v)
    ∧ dispatchCmd d holder_id s (pyLower (String.mk tok)) (String.mk rest) =
        (.ok (show_message s M true), []) by
    obtain ⟨M, hMor, hM⟩ := hres
    rw [heq, hM]
    exact ⟨rfl, rfl, rfl, rfl, hMor⟩
  set action := pyLower (String.mk tok) with haction
  set args := String.mk rest with hargsdef
  by_cases h1 : action = "add"
  · have hd : dispatchCmd d holder_id s action args = cmd_add d s args := by
      simp [dispatchCmd, h1]
    rw [hd] at hdc
    exact ⟨_, Or.inl rfl, by rw [hd, cmd_add_zero_calls d s args hdc]⟩
  by_cases h2 : action = "refresh" ∨ action = "r"
  · exfalso
    have hd : (dispatchCmd d holder_id s action args).2 = (refresh_tasks d s).2 := by
      simp [dispatchCmd, h1, h2]
    rw [hd] at hdc
    exact refresh_calls_ne_nil d s hdc
  by_cases h3 : action = "claim"
  · have hd : dispatchCmd d holder_id s action args = cmd_claim d holder_id s := by
      simp [dispatchCmd, h1, h2, h3]
    rw [hd] at hdc
    exact ⟨_, Or.inr (Or.inl rfl),
      by rw [hd, cmd_claim_zero_calls d holder_id s hdc]⟩
  by_cases h4 : action = "release"
  · have hd : dispatchCmd d holder_id s action args = cmd_release d holder_id s := by
      simp [dispatchCmd, h1, h2, h3, h4]
    rw [hd] at hdc
    exact ⟨_, Or.inr (Or.inl rfl),
      by rw [hd, cmd_release_zero_calls d holder_id s hdc]⟩
  by_cases h5 : action = "run"
  · have hd : dispatchCmd d holder_id s action args = cmd_run d holder_id s args := by
      simp [dispatchCmd, h1, h2, h3, h4, h5]
    rw [hd] at hdc
    have hwf : args = "" ∨ pyTokens args ≠ [] := by
      cases hr : rest with
      | nil =>
          left
          rw [hargsdef, hr]
      | cons c t =>
          right
          obtain ⟨ws1, ws2, _, _, _, _, _, hhead, _⟩ :=
            splitFirst_characterize _ _ _ hsplit
          have hc : pyIsSpace c = false := hhead c (by rw [hr]; rfl)
          rw [hargsdef, hr]
          exact pyTokens_cons_ne_nil c t hc
    rcases cmd_run_zero_calls d holder_id s args hwf hdc with hrun | hrun
    · exact ⟨_, Or.inr (Or.inl rfl), by rw [hd, hrun]⟩
    · exact ⟨_, Or.inr (Or.inr (Or.inl rfl)), by rw [hd, hrun]⟩
  by_cases h6 : action = "note"
  · have hd : dispatchCmd d holder_id s action args = cmd_note d s args := by
      simp [dispatchCmd, h1, h2, h3, h4, h5, h6]
    rw [hd] at hdc
    rcases cmd_note_zero_calls d s args hdc with hnote | hnote
    · exact ⟨_, Or.inr (Or.inl rfl), by rw [hd, hnote]⟩
    · exact ⟨_, Or.inr (Or.inr (Or.inr (Or.inl rfl))), by rw [hd, hnote]⟩
  by_cases h7 : action = "query"
  · have hd : dispatchCmd d holder_id s action args = cmd_query d s args := by
      simp [dispatchCmd, h1, h2, h3, h4, h5, h6, h7]
    rw [hd] at hdc
    exact ⟨_, Or.inr (Or.inr (Or.inr (Or.inr (Or.inl rfl)))),
      by rw [hd, cmd_query_zero_calls d s args hdc]⟩
  · have hd : dispatchCmd d holder_id s action args =
        (.ok (show_message s (unknownMsg action) true), []) := by
      simp [dispatchCmd, h1, h2, h3, h4, h5, h6, h7]
    exact ⟨_, Or.inr (Or.inr (Or.inr (Or.inr (Or.inr ⟨action, rfl⟩)))), hd⟩

/-- Claim C1 (amended) witness: a `claim` line with no selection is a local
rejection — no request issued, state untouched, error message among the
enumerated local rejections (none of which is a busy message). -/
theorem C1_witness :
    (handle_command okDaemon "tui@h" sNoSel "claim").1.tasks = sNoSel.tasks
  ∧ (handle_command okDaemon "tui@h" sNoSel "claim").1.isError = true
  ∧ ((handle_command okDaemon "tui@h" sNoSel "claim").1.message = "Usage: add <task title>"
   ∨ (handle_command okDaemon "tui@h" sNoSel "claim").1.message = noSelectionMsg
   ∨ (handle_command okDaemon "tui@h" sNoSel "claim").1.message = "Usage: run <command> [args...]"
   ∨ (handle_command okDaemon "tui@h" sNoSel "claim").1.message = "Usage: note <content>"
   ∨ (handle_command okDaemon "tui@h" sNoSel "claim").1.message = "Usage: query <search term>"
   ∨ ∃ v, (handle_command okDaemon "tui@h" sNoSel "claim").1.message = unknownMsg v) := by
  have h := C1_no_busy_rejection okDaemon "tui@h" sNoSel "claim" (by decide) (by decide)
  exact ⟨h.1, h.2.2.2.1, h.2.2.2.2⟩

/-- Claim C8: the command grammar.  (a) input that is empty after trimming
is a no-op (state unchanged, no message, no request); (b) the stripped line
splits on the first run of whitespace into the verb and the remainder; (c)
dispatch depends only on the lowercased verb and the remainder, so verb
matching is case-insensitive; (d) an unrecognized verb produces the
unknown-command error naming the (lowercased) verb, with no request; (e)
for `run`, the remainder splits on whitespace into the command and the
argument list sent in the run request. -/
theorem C8_grammar (d : Daemon) (holder_id : String) (s : AppState) (raw : String) :
    (pyStrip raw = "" → handle_command d holder_id s raw = (s, []))
  ∧ (∀ tok rest, splitFirst (pyStrip raw).toList = some (tok, rest) →
       ∃ ws1 ws2, (pyStrip raw).toList = ws1 ++ tok ++ ws2 ++ rest
        ∧ (∀ c ∈ ws1, pyIsSpace c = true) ∧ (∀ c ∈ ws2, pyIsSpace c = true)
        ∧ tok ≠ [] ∧ (∀ c ∈ tok, pyIsSpace c = false)
        ∧ (∀ c, rest.head? = some c → pyIsSpace c = false)
        ∧ (rest ≠ [] → ws2 ≠ []))
  ∧ (∀ raw2 tok1 tok2 rest,
       splitFirst (pyStrip raw).toList = some (tok1, rest) →
       splitFirst (pyStrip raw2).toList = some (tok2, rest) →
       pyLower (String.mk tok1) = pyLower (String.mk tok2) →
       handle_command d holder_id s raw = handle_command d holder_id s raw2)
  ∧ (∀ tok rest, splitFirst (pyStrip raw).toList = some (tok, rest) →
       pyLower (String.mk tok) ∉
         (["add", "refresh", "r", "claim", "release", "run", "note", "query"] :
           List String) →
       handle_command d holder_id s raw =
         (show_message s (unknownMsg (pyLower (String.mk tok))) true, []))
  ∧ (∀ tok rest task command args,
       splitFirst (pyStrip raw).toList = some (tok, rest) →
       pyLower (String.mk tok) = "run" →
       get_selected_task s = some task →
       pyTokens (String.mk rest) = command :: args →
       (handle_command d holder_id s raw).2 =
         [Call.post ("/tasks/" ++ task.id ++ "/run")
           [("holder_id", .str holder_id), ("command", .str command),
            ("args", .strList args)]]) := by
  refine ⟨?_, ?_, ?_, ?_, ?_⟩
  · intro h
    simp only [handle_command, if_pos h]
  · intro tok rest hsplit
    exact splitFirst_characterize _ tok rest hsplit
  · intro raw2 tok1 tok2 rest h1 h2 hlow
    rw [handle_command_eq_dispatch d holder_id s raw tok1 rest h1,
      handle_command_eq_dispatch d holder_id s raw2 tok2 rest h2, hlow]
  · intro tok rest hsplit hnotin
    rw [handle_command_eq_dispatch d holder_id s raw tok rest hsplit]
    simp only [List.mem_cons, List.not_mem_nil, or_false, not_or] at hnotin
    obtain ⟨n1, n2, n3, n4, n5, n6, n7, n8⟩ := hnotin
    have hd : dispatchCmd d holder_id s (pyLower (String.mk tok)) (String.mk rest) =
        (.ok (show_message s (unknownMsg (pyLower (String.mk tok))) true), []) := by
      rw [dispatchCmd, if_neg n1, if_neg (by rintro (h | h) <;> [exact n2 h; exact n3 h]),
        if_neg n4, if_neg n5, if_neg n6, if_neg n7, if_neg n8]
    rw [hd]
  · intro tok rest task command args hsplit hrun hsel htok
    rw [handle_command_eq_dispatch d holder_id s raw tok rest hsplit,
      handle_wrap_snd]
    have hd : dispatchCmd d holder_id s (pyLower (String.mk tok)) (String.mk rest) =
        cmd_run d holder_id s (String.mk rest) := by
      rw [hrun]
      rw [dispatchCmd]
      rw [if_neg (by decide), if_neg (by rintro (h | h) <;> exact absurd h (by decide)),
        if_neg (by decide), if_neg (by decide), if_pos rfl]
    rw [hd]
    have hne : String.mk rest ≠ "" := by
      intro h0
      rw [h0] at htok
      exact List.noConfusion htok
    simp only [cmd_run, hsel, if_neg hne, htok, run_task]
    rcases hi : run_task_interp task.id command d.runResp with e | r
    · simp [hi]
    · by_cases hexit : r.exit_code = 0 <;> simp [hi, hexit]

/-- Claim C8 witness: whitespace-only input is a no-op; `RUN build --flag`
behaves exactly as `run build --flag` (case-insensitive verb); `flurb now`
is reported as unknown command `flurb`; and `run build --flag` posts
command `build` with args `["--flag"]`. -/
theorem C8_witness :
    handle_command okDaemon "tui@h" s0 "   " = (s0, [])
  ∧ handle_command okDaemon "tui@h" s0 "RUN build --flag" =
      handle_command okDaemon "tui@h" s0 "run build --flag"
  ∧ handle_command okDaemon "tui@h" s0 "flurb now" =
      (show_message s0 (unknownMsg "flurb") true, [])
  ∧ (handle_command okDaemon "tui@h" s0 "run build --flag").2 =
      [Call.post "/tasks/task-001-abcdef/run"
        [("holder_id", .str "tui@h"), ("command", .str "build"),
         ("args", .strList ["--flag"])]] := by
  have hA := C8_grammar okDaemon "tui@h" s0 "   "
  have hB := C8_grammar okDaemon "tui@h" s0 "RUN build --flag"
  have hC := C8_grammar okDaemon "tui@h" s0 "flurb now"
  have hD := C8_grammar okDaemon "tui@h" s0 "run build --flag"
  refine ⟨hA.1 (by decide), ?_, ?_, ?_⟩
  · exact hB.2.2.1 "run build --flag" "RUN".toList "run".toList
      "build --flag".toList (by decide) (by decide) (by decide)
  · have h := hC.2.2.2.1 "flurb".toList "now".toList (by decide) (by decide)
    exact h.trans (by decide)
  · exact hD.2.2.2.2 "run".toList "build --flag".toList tr1 "build" ["--flag"]
      (by decide) (by decide) (by decide) (by decide)

end NeonaTui
